import Mathlib

/-!
Shallow embedding of `va/wayland/va_wayland_drm.c` (libva Wayland/DRM glue).

External calls (stat, open, dlopen, dlsym, wl_display_get_global,
wl_display_bind, drmGetMagic, drmGetVersion, strdup, calloc, the compositor
round-trips) are modelled by environment records that fix each call's outcome;
every function also emits a trace of the external calls it performs, with the
outcome the call reported, so that ordering and checking of calls is provable.
-/

namespace VaWaylandDrm

/-- Model of the `VAStatus` codes this file returns
(`VA_STATUS_SUCCESS`, `VA_STATUS_ERROR_UNKNOWN`,
`VA_STATUS_ERROR_ALLOCATION_FAILED`). -/
inductive VAStatus where
  | success
  | errorUnknown
  | errorAllocationFailed
deriving DecidableEq, Repr

/-- `VA_DRM_AUTH_CUSTOM` from `va_drmcommon.h` (value 3; 0 means none). -/
def VA_DRM_AUTH_CUSTOM : Nat := 3

/-- `struct drm_state` (from `va_drmcommon.h`): the fields this file uses. -/
structure DrmState where
  fd : Int
  auth_type : Nat
deriving DecidableEq, Repr

/-- The wayland-DRM part of the display context
(`VADisplayContextWaylandDRM`): `wl_drm` proxy pointer, authenticated flag,
`libEGL` dlopen handle, resolved `wl_drm_interface` symbol.  Pointers are
modelled by presence booleans. -/
structure WlDrmCtx where
  drm : Bool
  is_authenticated : Nat
  libEGL_handle : Bool
  drm_iface : Bool
deriving DecidableEq, Repr

/-- The display-context state the file touches: the wayland backend state,
`ctx->drm_state` (NULL = `none`), and whether the `finalize` hook and the
`vaGetDriverName` callback have been installed.  `opened` and `authFired` are
ghost fields recording that `open(2)` succeeded on the advertised device and
that the compositor's `authenticated` callback has run; no control flow reads
them. -/
structure Ctx where
  wl : WlDrmCtx
  drm_state : Option DrmState
  finalize_set : Bool
  vaGetDriverName_set : Bool
  opened : Bool
  authFired : Bool
deriving DecidableEq, Repr

/-- Trace events: one per external call the C file performs, carrying the
outcome that call reported. -/
inductive Event where
  | callocEvt (ok : Bool)
  | getGlobalEvt (id : Nat)
  | roundtripEvt
  | dlopenEvt (ok : Bool)
  | dlsymEvt (ok : Bool)
  | bindEvt (ok : Bool)
  | addListenerEvt
  | statEvt (ok : Bool)
  | openEvt (fd : Option Nat)
  | drmGetMagicEvt (ok : Bool)
  | wlDrmAuthenticateEvt
  | drmDestroyEvt
  | dlcloseEvt
  | closeEvt (fd : Int)
  | freeDrmStateEvt
  | drmGetVersionEvt (ok : Bool)
  | drmFreeVersionEvt
  | strdupEvt (ok : Bool)
deriving DecidableEq, Repr

/-! ## Driver name mapper -/

/-- The relevant fields of `drmVersionPtr` as filled in by `drmGetVersion`:
the kernel driver name and the `name_len` field. -/
structure DrmVersion where
  name : List Char
  name_len : Nat
deriving DecidableEq, Repr

/-- `struct driver_name_map`: table entry {key, key_len, mapped name}. -/
structure DriverNameMap where
  key : List Char
  key_len : Nat
  name : String
deriving DecidableEq, Repr

/-- `g_driver_name_map` (the `{ NULL, }` sentinel becomes the list end). -/
def g_driver_name_map : List DriverNameMap :=
  [ ⟨"i915".toList, 4, "i965"⟩,
    ⟨"pvrsrvkm".toList, 8, "pvr"⟩,
    ⟨"emgd".toList, 4, "emgd"⟩ ]

/-- `strncmp(a, b, n) == 0`, for strings without embedded NUL bytes. -/
def strncmpEq (a b : List Char) (n : Nat) : Bool :=
  a.take n == b.take n

/-- The loop condition at lines 131-132:
`drm_version->name_len >= m->key_len && strncmp(drm_version->name, m->key, m->key_len) == 0`. -/
def driverNameMatch (v : DrmVersion) (m : DriverNameMap) : Bool :=
  decide (m.key_len ≤ v.name_len) && strncmpEq v.name m.key m.key_len

/-- Outcomes of the external calls `va_DisplayContextGetDriverName` makes:
what `drmGetVersion` returns for a given fd, and whether `strdup` succeeds. -/
structure GetDriverNameEnv where
  drmGetVersion : Int → Option DrmVersion
  strdupOk : Bool

/-- Result of `va_DisplayContextGetDriverName`: the returned `VAStatus`, the
value stored through `driver_name_ptr` (NULL = `none`), the `drm_state` as
left by the call, and the trace of external calls. -/
structure GetDriverNameResult where
  status : VAStatus
  driver_name_ptr : Option String
  drm_state : DrmState
  events : List Event
deriving DecidableEq, Repr

/-- `va_DisplayContextGetDriverName` (lines 112-146): sets
`*driver_name_ptr = NULL`; queries `drmGetVersion(drm_state->fd)` (fail →
`VA_STATUS_ERROR_UNKNOWN`); scans `g_driver_name_map` for the first match;
frees the version record; no match → `VA_STATUS_ERROR_UNKNOWN`; `strdup` the
mapped name (fail → `VA_STATUS_ERROR_ALLOCATION_FAILED`); stores it and
returns success. -/
def va_DisplayContextGetDriverName (env : GetDriverNameEnv)
    (drm_state : DrmState) : GetDriverNameResult :=
  match env.drmGetVersion drm_state.fd with
  | none => ⟨.errorUnknown, none, drm_state, [.drmGetVersionEvt false]⟩
  | some v =>
    match g_driver_name_map.find? (driverNameMatch v) with
    | none =>
      ⟨.errorUnknown, none, drm_state,
        [.drmGetVersionEvt true, .drmFreeVersionEvt]⟩
    | some m =>
      if env.strdupOk then
        ⟨.success, some m.name, drm_state,
          [.drmGetVersionEvt true, .drmFreeVersionEvt, .strdupEvt true]⟩
      else
        ⟨.errorAllocationFailed, none, drm_state,
          [.drmGetVersionEvt true, .drmFreeVersionEvt, .strdupEvt false]⟩

/-- Spec-side description of the mapping (for the refinement claim): scan the
table top-to-bottom and return the mapped name of the first entry whose
`key_len` does not exceed the reported name's length and whose key equals the
first `key_len` characters of the reported name. -/
def specDriverNameLookup (name : List Char) : Option String :=
  (g_driver_name_map.find?
      (fun m => decide (m.key_len ≤ name.length) && (name.take m.key_len == m.key))).map
    DriverNameMap.name

/-! ## Finalizer -/

/-- `va_wayland_drm_finalize` (lines 148-175): destroy the `wl_drm` proxy if
present, clear the authenticated flag, `dlclose` the library handle if loaded,
and if `drm_state` is non-NULL close its fd when `fd >= 0` and free it.
Returns the resulting context and the trace of release calls. -/
def va_wayland_drm_finalize (c : Ctx) : Ctx × List Event :=
  let wlA := if c.wl.drm then { c.wl with drm := false } else c.wl
  let evA : List Event := if c.wl.drm then [.drmDestroyEvt] else []
  let wlB := { wlA with is_authenticated := 0 }
  let wlC := if wlB.libEGL_handle then { wlB with libEGL_handle := false } else wlB
  let evB : List Event := if wlB.libEGL_handle then [.dlcloseEvt] else []
  match c.drm_state with
  | none => ({ c with wl := wlC, drm_state := none }, evA ++ evB)
  | some st =>
    if 0 ≤ st.fd then
      ({ c with wl := wlC, drm_state := none },
        evA ++ evB ++ [.closeEvt st.fd, .freeDrmStateEvt])
    else
      ({ c with wl := wlC, drm_state := none }, evA ++ evB ++ [.freeDrmStateEvt])

/-! ## Initializer and its callbacks -/

/-- Outcomes of the external calls `drm_handle_device` makes for one
advertised device path: whether `stat` succeeds, whether the path is a
character device, what `open` returns (`none` = -1), and whether
`drmGetMagic` succeeds (its result is what the call would report; the C code
does not look at it). -/
structure DeviceEnv where
  statOk : Bool
  isChr : Bool
  openResult : Option Nat
  drmGetMagicOk : Bool
deriving DecidableEq, Repr

/-- Write `drm_state->fd` (no-op when `drm_state` is NULL, which the C code
never reaches: the initializer allocates it before any callback can run). -/
def setFd (c : Ctx) (fd : Int) : Ctx :=
  match c.drm_state with
  | none => c
  | some st => { c with drm_state := some { st with fd := fd } }

/-- `drm_handle_device` (lines 43-74): `stat` the path (fail → log, return);
reject non-character devices; `drm_state->fd = open(device, O_RDWR)` (fail →
fd is -1, log, return); `drmGetMagic(fd, &magic)` (result unchecked);
`wl_drm_authenticate(drm, magic)`.  Returns the new context, the trace, and
whether the authenticate request was sent. -/
def drm_handle_device (denv : DeviceEnv) (c : Ctx) : Ctx × List Event × Bool :=
  if !denv.statOk then
    (c, [.statEvt false], false)
  else if !denv.isChr then
    (c, [.statEvt true], false)
  else
    match denv.openResult with
    | none =>
      (setFd c (-1), [.statEvt true, .openEvt none], false)
    | some n =>
      ({ setFd c (Int.ofNat n) with opened := true },
        [.statEvt true, .openEvt (some n), .drmGetMagicEvt denv.drmGetMagicOk,
          .wlDrmAuthenticateEvt],
        true)

/-- `drm_handle_authenticated` (lines 81-91): set
`wl_ctx->backend.drm.is_authenticated = 1` and
`drm_state->auth_type = VA_DRM_AUTH_CUSTOM`. -/
def drm_handle_authenticated (c : Ctx) : Ctx :=
  let c1 := { c with wl := { c.wl with is_authenticated := 1 }, authFired := true }
  match c1.drm_state with
  | none => c1
  | some st => { c1 with drm_state := some { st with auth_type := VA_DRM_AUTH_CUSTOM } }

/-- `ctx->drm_state->fd` as read by the check at line 222 (the state is
always allocated at that point; `none` defaults to -1). -/
def ctxFd (c : Ctx) : Int :=
  match c.drm_state with
  | none => -1
  | some st => st.fd

/-- Outcomes of the external calls `va_wayland_drm_init` makes: whether
`calloc` succeeds, the ids the two `wl_display_get_global` calls return
(0 = not found), whether `dlopen`/`dlsym`/`wl_display_bind` succeed, the
device advertisement the first listener round-trip delivers (if any), and
whether the compositor confirms a requested authentication during the second
round-trip. -/
structure InitEnv where
  callocOk : Bool
  getGlobal1 : Nat
  getGlobal2 : Nat
  dlopenOk : Bool
  dlsymOk : Bool
  bindOk : Bool
  deviceAdvert : Option DeviceEnv
  authConfirm : Bool
deriving DecidableEq, Repr

/-- Result of `va_wayland_drm_init`: the boolean return value, the final
context, the trace of external calls, and the context snapshots after each
mutation step (used to state reachable-state invariants). -/
structure InitResult where
  ok : Bool
  ctx : Ctx
  trace : List Event
  states : List Ctx
deriving DecidableEq, Repr

/-- Lines 222-228 of `va_wayland_drm_init`, after the first round-trip:
`if (drm_state->fd < 0) return false`, second round-trip (delivers the
compositor's `authenticated` event, which fires only if the authenticate
request was sent and the compositor confirms it),
`if (!is_authenticated) return false`, `return true`. -/
def initRound2 (env : InitEnv) (c1 : Ctx) (authReq : Bool) (tr1 : List Event)
    (sts1 : List Ctx) : InitResult :=
  if ctxFd c1 < 0 then
    ⟨false, c1, tr1, sts1⟩
  else
    let c2 := if authReq && env.authConfirm then drm_handle_authenticated c1 else c1
    if c2.wl.is_authenticated == 0 then
      ⟨false, c2, tr1 ++ [.roundtripEvt], sts1 ++ [c2]⟩
    else
      ⟨true, c2, tr1 ++ [.roundtripEvt], sts1 ++ [c2]⟩

/-- Lines 220-228 of `va_wayland_drm_init`: `wl_drm_add_listener`, first
round-trip (delivers the device advertisement, if any, to
`drm_handle_device`), then the fd check and the second round-trip. -/
def initAfterBind (env : InitEnv) (c : Ctx) (tr : List Event)
    (sts : List Ctx) : InitResult :=
  match env.deviceAdvert with
  | none =>
    initRound2 env c false (tr ++ [.addListenerEvt, .roundtripEvt]) (sts ++ [c])
  | some denv =>
    match drm_handle_device denv c with
    | (c1, ev, authReq) =>
      initRound2 env c1 authReq (tr ++ [.addListenerEvt, .roundtripEvt] ++ ev)
        (sts ++ [c1])

/-- Lines 206-219 of `va_wayland_drm_init`: `dlopen(LIBEGL_NAME)` (fail →
false), `dlsym("wl_drm_interface")` (fail → false), `wl_display_bind` (fail →
false), then the listener/round-trip phase. -/
def initAfterGlobal (env : InitEnv) (c : Ctx) (tr : List Event)
    (sts : List Ctx) : InitResult :=
  if !env.dlopenOk then
    ⟨false, c, tr ++ [.dlopenEvt false], sts⟩
  else
    let c1 := { c with wl := { c.wl with libEGL_handle := true } }
    if !env.dlsymOk then
      ⟨false, c1, tr ++ [.dlopenEvt true, .dlsymEvt false], sts ++ [c1]⟩
    else
      let c2 := { c1 with wl := { c1.wl with drm_iface := true } }
      if !env.bindOk then
        ⟨false, c2, tr ++ [.dlopenEvt true, .dlsymEvt true, .bindEvt false],
          sts ++ [c2]⟩
      else
        let c3 := { c2 with wl := { c2.wl with drm := true } }
        initAfterBind env c3
          (tr ++ [.dlopenEvt true, .dlsymEvt true, .bindEvt true])
          (sts ++ [c3])

/-- `va_wayland_drm_init` (lines 177-229): clear `wl_drm_ctx->drm` and
`is_authenticated`, install the `finalize` hook and the `vaGetDriverName`
callback; `calloc` the drm state (fail → false) and set `fd = -1`,
`auth_type = 0`; query the registry for `"wl_drm"`, on a zero id do one
round-trip and retry, fail if still zero; then dlopen / dlsym / bind /
listener phases. -/
def va_wayland_drm_init (env : InitEnv) (c0 : Ctx) : InitResult :=
  let c1 : Ctx := { c0 with
    wl := { c0.wl with drm := false, is_authenticated := 0 },
    finalize_set := true,
    vaGetDriverName_set := true }
  if !env.callocOk then
    ⟨false, c1, [.callocEvt false], [c1]⟩
  else
    let c2 := { c1 with drm_state := some { fd := -1, auth_type := 0 } }
    if env.getGlobal1 ≠ 0 then
      initAfterGlobal env c2
        [.callocEvt true, .getGlobalEvt env.getGlobal1] [c1, c2]
    else if env.getGlobal2 ≠ 0 then
      initAfterGlobal env c2
        [.callocEvt true, .getGlobalEvt 0, .roundtripEvt,
          .getGlobalEvt env.getGlobal2] [c1, c2]
    else
      ⟨false, c2,
        [.callocEvt true, .getGlobalEvt 0, .roundtripEvt, .getGlobalEvt 0],
        [c1, c2]⟩


/-! ## Predicates and concrete inputs used in the statements -/

/-- The device advertisement leads to an open fd: `stat` succeeded, the path
is a character device, and `open` succeeded. -/
def deviceOkEnv (denv : DeviceEnv) : Prop :=
  denv.statOk = true ∧ denv.isChr = true ∧ ∃ n, denv.openResult = some n

/-- External-call events whose reported result the C code checks and acts
on (calloc, dlopen, dlsym, bind, stat, open), marked as failed. -/
def isFailedCheckedCall : Event → Bool
  | .callocEvt ok => !ok
  | .dlopenEvt ok => !ok
  | .dlsymEvt ok => !ok
  | .bindEvt ok => !ok
  | .statEvt ok => !ok
  | .openEvt r => r.isNone
  | _ => false

/-- Any external-call event that reported failure, including the calls whose
result the C code ignores (`drmGetMagic`) or retries (`wl_display_get_global`
returning 0). -/
def isFailedExternalCall : Event → Bool
  | .callocEvt ok => !ok
  | .getGlobalEvt id => id == 0
  | .dlopenEvt ok => !ok
  | .dlsymEvt ok => !ok
  | .bindEvt ok => !ok
  | .statEvt ok => !ok
  | .openEvt r => r.isNone
  | .drmGetMagicEvt ok => !ok
  | _ => false

/-- Event classifiers for ordering statements. -/
def isGetGlobalEvt : Event → Bool
  | .getGlobalEvt _ => true
  | _ => false

def isDlopenEvt : Event → Bool
  | .dlopenEvt _ => true
  | _ => false

def isDlsymEvt : Event → Bool
  | .dlsymEvt _ => true
  | _ => false

/-- The invariant of §3 of the spec on the DRM state: a non-negative file
descriptor implies the device was successfully opened, and a non-zero
`auth_type` implies the compositor's authenticated callback has fired. -/
def drmInvariant (c : Ctx) : Prop :=
  match c.drm_state with
  | none => True
  | some st =>
    (0 ≤ st.fd → c.opened = true) ∧ (st.auth_type ≠ 0 → c.authFired = true)

/-- A fresh display context: nothing set, no drm state. -/
def ctx0 : Ctx := ⟨⟨false, 0, false, false⟩, none, false, false, false, false⟩

/-- Environment in which every external call succeeds. -/
def envAllOk : InitEnv :=
  ⟨true, 1, 0, true, true, true, some ⟨true, true, some 4, true⟩, true⟩

/-- Environment in which every external call succeeds except `drmGetMagic`,
whose (ignored) result is failure; the compositor still confirms. -/
def envMagicFail : InitEnv :=
  ⟨true, 1, 0, true, true, true, some ⟨true, true, some 4, false⟩, true⟩

/-- Environment in which everything succeeds but `stat` on the advertised
device path fails. -/
def envStatFail : InitEnv :=
  ⟨true, 1, 0, true, true, true, some ⟨false, true, some 4, true⟩, true⟩

/-- Environment in which everything succeeds, the device opens, but the
compositor never confirms authentication. -/
def envAuthFail : InitEnv :=
  ⟨true, 1, 0, true, true, true, some ⟨true, true, some 4, true⟩, false⟩

/-- Driver-name query environment: the kernel reports driver "i915"
(`name_len` 4) and `strdup` succeeds. -/
def envGetI915 : GetDriverNameEnv := ⟨fun _ => some ⟨"i915".toList, 4⟩, true⟩

/-- Driver-name query environment: the kernel reports driver "i915" but
`strdup` fails. -/
def envGetAllocFail : GetDriverNameEnv :=
  ⟨fun _ => some ⟨"i915".toList, 4⟩, false⟩

/-- A dynamic-library event (library load or symbol lookup). -/
def isLibEvt (e : Event) : Bool := isDlopenEvt e || isDlsymEvt e

/-! ## Helper lemmas -/

lemma find?_ext {α : Type} (l : List α) (p q : α → Bool)
    (h : ∀ a ∈ l, p a = q a) : l.find? p = l.find? q := by
  induction l with
  | nil => rfl
  | cons a l ih =>
    have ha := h a (List.mem_cons_self a l)
    rw [List.find?_cons, List.find?_cons, ha]
    cases q a with
    | true => rfl
    | false => exact ih fun b hb => h b (List.mem_cons_of_mem a hb)

lemma setFd_fields (c : Ctx) (fd : Int) :
    (setFd c fd).finalize_set = c.finalize_set ∧
    (setFd c fd).vaGetDriverName_set = c.vaGetDriverName_set ∧
    (setFd c fd).wl = c.wl ∧
    (setFd c fd).authFired = c.authFired := by
  obtain ⟨wl, dst, f, g, o, a⟩ := c
  rcases dst with _ | st <;> simp [setFd]

lemma device_fields (denv : DeviceEnv) (c : Ctx) :
    (drm_handle_device denv c).1.finalize_set = c.finalize_set ∧
    (drm_handle_device denv c).1.vaGetDriverName_set = c.vaGetDriverName_set ∧
    (drm_handle_device denv c).1.wl = c.wl ∧
    (drm_handle_device denv c).1.authFired = c.authFired := by
  obtain ⟨s, ch, opn, mg⟩ := denv
  obtain ⟨wl, dst, f, g, o, a⟩ := c
  cases s <;> cases ch <;> rcases opn with _ | n <;> rcases dst with _ | st <;>
    simp [drm_handle_device, setFd]

lemma auth_fields (c : Ctx) :
    (drm_handle_authenticated c).finalize_set = c.finalize_set ∧
    (drm_handle_authenticated c).vaGetDriverName_set = c.vaGetDriverName_set ∧
    (drm_handle_authenticated c).opened = c.opened := by
  obtain ⟨wl, dst, f, g, o, a⟩ := c
  rcases dst with _ | st <;> simp [drm_handle_authenticated]

lemma round2_hooks (env : InitEnv) (c1 : Ctx) (authReq : Bool)
    (tr1 : List Event) (sts1 : List Ctx) :
    (initRound2 env c1 authReq tr1 sts1).ctx.finalize_set = c1.finalize_set ∧
    (initRound2 env c1 authReq tr1 sts1).ctx.vaGetDriverName_set
      = c1.vaGetDriverName_set := by
  unfold initRound2
  split
  · exact ⟨rfl, rfl⟩
  · cases hc : (authReq && env.authConfirm)
    · simp only [hc, Bool.false_eq_true, if_false]
      split <;> exact ⟨rfl, rfl⟩
    · simp only [hc, if_true]
      split <;>
        exact ⟨(auth_fields c1).1, (auth_fields c1).2.1⟩

lemma afterBind_hooks (env : InitEnv) (c : Ctx) (tr : List Event)
    (sts : List Ctx) :
    (initAfterBind env c tr sts).ctx.finalize_set = c.finalize_set ∧
    (initAfterBind env c tr sts).ctx.vaGetDriverName_set
      = c.vaGetDriverName_set := by
  unfold initAfterBind
  cases hda : env.deviceAdvert with
  | none => exact round2_hooks env c false _ _
  | some denv =>
    dsimp only
    rcases hdev : drm_handle_device denv c with ⟨c1, ev, r⟩
    obtain ⟨hf, hg, _, _⟩ := device_fields denv c
    rw [hdev] at hf hg
    exact ⟨(round2_hooks env c1 r _ _).1.trans hf,
      (round2_hooks env c1 r _ _).2.trans hg⟩

lemma afterGlobal_hooks (env : InitEnv) (c : Ctx) (tr : List Event)
    (sts : List Ctx) :
    (initAfterGlobal env c tr sts).ctx.finalize_set = c.finalize_set ∧
    (initAfterGlobal env c tr sts).ctx.vaGetDriverName_set
      = c.vaGetDriverName_set := by
  unfold initAfterGlobal
  cases hdl : env.dlopenOk
  · simp [hdl]
  · cases hds : env.dlsymOk
    · simp [hdl, hds]
    · cases hbd : env.bindOk
      · simp [hdl, hds, hbd]
      · simp only [hdl, hds, hbd, Bool.not_true, Bool.false_eq_true, if_false]
        exact afterBind_hooks env _ _ _

lemma auth_sets (c : Ctx) :
    (drm_handle_authenticated c).wl.is_authenticated = 1 ∧
    (drm_handle_authenticated c).authFired = true := by
  obtain ⟨wl, dst, f, g, o, a⟩ := c
  rcases dst with _ | st <;> simp [drm_handle_authenticated]

lemma round2_ok (env : InitEnv) (c1 : Ctx) (authReq : Bool)
    (tr1 : List Event) (sts1 : List Ctx)
    (hauth : c1.wl.is_authenticated = 0) :
    ((initRound2 env c1 authReq tr1 sts1).ok = true ↔
      (0 ≤ ctxFd c1 ∧ authReq = true ∧ env.authConfirm = true)) := by
  unfold initRound2
  split
  · next hfd =>
    simp only [Bool.false_eq_true, false_iff]
    rintro ⟨h, _, _⟩; omega
  · next hfd =>
    cases hc : (authReq && env.authConfirm)
    · simp only [hc, Bool.false_eq_true, if_false, hauth]
      simp only [beq_self_eq_true, if_true, Bool.false_eq_true, false_iff]
      rintro ⟨_, hr, hcf⟩
      rw [hr, hcf] at hc; cases hc
    · simp only [hc, if_true]
      have h1 := (auth_sets c1).1
      have hand := hc
      rw [Bool.and_eq_true] at hand
      simp only [h1, show ((1 : Nat) == 0) = false from rfl,
        Bool.false_eq_true, if_false, true_iff]
      exact ⟨by omega, hand.1, hand.2⟩

lemma round2_authFired (env : InitEnv) (c1 : Ctx) (authReq : Bool)
    (tr1 : List Event) (sts1 : List Ctx)
    (hauth : c1.wl.is_authenticated = 0)
    (h : (initRound2 env c1 authReq tr1 sts1).ok = true) :
    (initRound2 env c1 authReq tr1 sts1).ctx.authFired = true := by
  revert h
  unfold initRound2
  split
  · intro h; cases h
  · cases hc : (authReq && env.authConfirm)
    · simp only [hc, Bool.false_eq_true, if_false, hauth]
      simp only [beq_self_eq_true, if_true]
      intro h; cases h
    · simp only [hc, if_true]
      have h1 := (auth_sets c1).1
      simp only [h1]
      intro _
      exact (auth_sets c1).2

lemma afterBind_ok_iff (env : InitEnv) (c : Ctx) (tr : List Event)
    (sts : List Ctx) (a0 : Nat)
    (hauth : c.wl.is_authenticated = 0)
    (hst : c.drm_state = some ⟨-1, a0⟩) :
    ((initAfterBind env c tr sts).ok = true ↔
      ((∃ denv, env.deviceAdvert = some denv ∧ deviceOkEnv denv) ∧
        env.authConfirm = true)) := by
  unfold initAfterBind
  cases hda : env.deviceAdvert with
  | none =>
    rw [round2_ok env c false _ _ hauth]
    simp [ctxFd, hst]
  | some denv =>
    dsimp only
    obtain ⟨s, ch, opn, mg⟩ := denv
    obtain ⟨wl, dst, f, g, o, a⟩ := c
    cases hst
    cases s
    · simp only [drm_handle_device, Bool.not_false, if_true]
      rw [round2_ok env _ _ _ _ (by exact hauth)]
      simp [ctxFd, deviceOkEnv]
    · cases ch
      · simp only [drm_handle_device, Bool.not_true, Bool.not_false,
          Bool.false_eq_true, if_false, if_true]
        rw [round2_ok env _ _ _ _ (by exact hauth)]
        simp [ctxFd, deviceOkEnv]
      · rcases opn with _ | n
        · simp only [drm_handle_device, Bool.not_true, Bool.false_eq_true,
            if_false, setFd]
          rw [round2_ok env _ _ _ _ (by exact hauth)]
          simp [ctxFd, deviceOkEnv]
        · simp only [drm_handle_device, Bool.not_true, Bool.false_eq_true,
            if_false, setFd]
          rw [round2_ok env _ _ _ _ (by exact hauth)]
          have hn : (0 : Int) ≤ Int.ofNat n := Int.ofNat_nonneg n
          simp [ctxFd, deviceOkEnv, hn]

lemma afterBind_authFired (env : InitEnv) (c : Ctx) (tr : List Event)
    (sts : List Ctx)
    (hauth : c.wl.is_authenticated = 0)
    (h : (initAfterBind env c tr sts).ok = true) :
    (initAfterBind env c tr sts).ctx.authFired = true := by
  revert h
  unfold initAfterBind
  cases hda : env.deviceAdvert with
  | none => exact round2_authFired env c false _ _ hauth
  | some denv =>
    dsimp only
    rcases hdev : drm_handle_device denv c with ⟨c1, ev, r⟩
    have hwl : c1.wl = c.wl := by
      have := (device_fields denv c).2.2.1
      rw [hdev] at this; exact this
    exact round2_authFired env c1 r _ _ (by rw [hwl]; exact hauth)

lemma afterGlobal_ok_iff (env : InitEnv) (c : Ctx) (tr : List Event)
    (sts : List Ctx) (a0 : Nat)
    (hauth : c.wl.is_authenticated = 0)
    (hst : c.drm_state = some ⟨-1, a0⟩) :
    ((initAfterGlobal env c tr sts).ok = true ↔
      (env.dlopenOk = true ∧ env.dlsymOk = true ∧ env.bindOk = true ∧
        (∃ denv, env.deviceAdvert = some denv ∧ deviceOkEnv denv) ∧
        env.authConfirm = true)) := by
  unfold initAfterGlobal
  cases hdl : env.dlopenOk
  · simp [hdl]
  · cases hds : env.dlsymOk
    · simp [hdl, hds]
    · cases hbd : env.bindOk
      · simp [hdl, hds, hbd]
      · simp only [hdl, hds, hbd, Bool.not_true, Bool.false_eq_true, if_false]
        rw [afterBind_ok_iff env _ _ _ a0 (by exact hauth) (by exact hst)]
        simp

lemma afterGlobal_authFired (env : InitEnv) (c : Ctx) (tr : List Event)
    (sts : List Ctx)
    (hauth : c.wl.is_authenticated = 0)
    (h : (initAfterGlobal env c tr sts).ok = true) :
    (initAfterGlobal env c tr sts).ctx.authFired = true := by
  revert h
  unfold initAfterGlobal
  cases hdl : env.dlopenOk
  · intro h; simp [hdl] at h
  · cases hds : env.dlsymOk
    · intro h; simp [hdl, hds] at h
    · cases hbd : env.bindOk
      · intro h; simp [hdl, hds, hbd] at h
      · simp only [hdl, hds, hbd, Bool.not_true, Bool.false_eq_true, if_false]
        exact afterBind_authFired env _ _ _ (by exact hauth)

lemma init_ok_iff (env : InitEnv) (c0 : Ctx) :
    ((va_wayland_drm_init env c0).ok = true ↔
      (env.callocOk = true ∧ (env.getGlobal1 ≠ 0 ∨ env.getGlobal2 ≠ 0) ∧
        env.dlopenOk = true ∧ env.dlsymOk = true ∧ env.bindOk = true ∧
        (∃ denv, env.deviceAdvert = some denv ∧ deviceOkEnv denv) ∧
        env.authConfirm = true)) := by
  unfold va_wayland_drm_init
  cases hc : env.callocOk
  · simp [hc]
  · by_cases hg1 : env.getGlobal1 = 0
    · by_cases hg2 : env.getGlobal2 = 0
      · simp [hc, hg1, hg2]
      · simp only [hc, hg1, hg2, Bool.not_true, Bool.false_eq_true, if_false,
          ne_eq, not_true_eq_false, not_false_eq_true, if_true]
        rw [afterGlobal_ok_iff env _ _ _ 0 (by simp) (by simp)]
        simp [hg1, hg2]
    · simp only [hc, hg1, Bool.not_true, Bool.false_eq_true, if_false, ne_eq,
        not_false_eq_true, if_true]
      rw [afterGlobal_ok_iff env _ _ _ 0 (by simp) (by simp)]
      simp [hg1]

lemma init_authFired (env : InitEnv) (c0 : Ctx)
    (h : (va_wayland_drm_init env c0).ok = true) :
    (va_wayland_drm_init env c0).ctx.authFired = true := by
  revert h
  unfold va_wayland_drm_init
  cases hc : env.callocOk
  · intro h; simp [hc] at h
  · by_cases hg1 : env.getGlobal1 = 0
    · by_cases hg2 : env.getGlobal2 = 0
      · intro h; simp [hc, hg1, hg2] at h
      · simp only [hc, hg1, hg2, Bool.not_true, Bool.false_eq_true, if_false,
          ne_eq, not_true_eq_false, not_false_eq_true, if_true]
        exact afterGlobal_authFired env _ _ _ (by simp)
    · simp only [hc, hg1, Bool.not_true, Bool.false_eq_true, if_false, ne_eq,
        not_false_eq_true, if_true]
      exact afterGlobal_authFired env _ _ _ (by simp)

lemma round2_neg_fd (env : InitEnv) (c1 : Ctx) (r : Bool) (tr1 : List Event)
    (sts1 : List Ctx) (h : ctxFd c1 < 0) :
    initRound2 env c1 r tr1 sts1 = ⟨false, c1, tr1, sts1⟩ := by
  unfold initRound2
  rw [if_pos h]

lemma round2_trace (env : InitEnv) (c1 : Ctx) (r : Bool) (tr1 : List Event)
    (sts1 : List Ctx) :
    (initRound2 env c1 r tr1 sts1).trace = tr1 ∨
    (initRound2 env c1 r tr1 sts1).trace = tr1 ++ [.roundtripEvt] := by
  unfold initRound2
  split
  · exact Or.inl rfl
  · refine Or.inr ?_
    dsimp only
    split <;> split <;> rfl

lemma device_ev_ok (denv : DeviceEnv) (c : Ctx)
    (h : (drm_handle_device denv c).2.2 = true) :
    ((drm_handle_device denv c).2.1.any isFailedCheckedCall) = false := by
  obtain ⟨s, ch, opn, mg⟩ := denv
  cases s <;> cases ch <;> rcases opn with _ | n <;>
    simp_all [drm_handle_device, isFailedCheckedCall]

lemma afterBind_trace_ok (env : InitEnv) (c : Ctx) (tr : List Event)
    (sts : List Ctx) (hauth : c.wl.is_authenticated = 0)
    (h : (initAfterBind env c tr sts).ok = true) :
    ((initAfterBind env c tr sts).trace.any isFailedCheckedCall)
      = (tr.any isFailedCheckedCall) := by
  revert h
  unfold initAfterBind
  cases hda : env.deviceAdvert with
  | none =>
    intro h
    rw [round2_ok env c false _ _ hauth] at h
    simp at h
  | some denv =>
    dsimp only
    rcases hdev : drm_handle_device denv c with ⟨c1, ev, r⟩
    intro h
    have hwl : c1.wl = c.wl := by
      have := (device_fields denv c).2.2.1
      rw [hdev] at this; exact this
    have hr : r = true := by
      have := (round2_ok env c1 r
        (tr ++ [.addListenerEvt, .roundtripEvt] ++ ev) (sts ++ [c1])
        (by rw [hwl]; exact hauth)).mp h
      exact this.2.1
    have hev : ev.any isFailedCheckedCall = false := by
      have := device_ev_ok denv c (by rw [hdev, hr])
      rw [hdev] at this; exact this
    rcases round2_trace env c1 r (tr ++ [.addListenerEvt, .roundtripEvt] ++ ev)
        (sts ++ [c1]) with htr | htr <;>
      rw [htr] <;>
      simp [List.any_append, hev, isFailedCheckedCall]

lemma afterGlobal_trace_ok (env : InitEnv) (c : Ctx) (tr : List Event)
    (sts : List Ctx) (hauth : c.wl.is_authenticated = 0)
    (h : (initAfterGlobal env c tr sts).ok = true) :
    ((initAfterGlobal env c tr sts).trace.any isFailedCheckedCall)
      = (tr.any isFailedCheckedCall) := by
  revert h
  unfold initAfterGlobal
  cases hdl : env.dlopenOk
  · intro h; simp at h
  · cases hds : env.dlsymOk
    · intro h; simp [hdl] at h
    · cases hbd : env.bindOk
      · intro h; simp [hdl, hds] at h
      · simp only [hdl, hds, hbd, Bool.not_true, Bool.false_eq_true, if_false]
        intro h
        rw [afterBind_trace_ok env _ _ _ (by exact hauth) h]
        simp [List.any_append, isFailedCheckedCall]

lemma afterBind_ctx_drm_state_bad (env : InitEnv) (c : Ctx) (tr : List Event)
    (sts : List Ctx) (a0 : Nat) (denv : DeviceEnv)
    (hda : env.deviceAdvert = some denv)
    (hbad : denv.statOk = false ∨ denv.isChr = false ∨ denv.openResult = none)
    (hst : c.drm_state = some ⟨-1, a0⟩) :
    (initAfterBind env c tr sts).ok = false ∧
    (initAfterBind env c tr sts).ctx.drm_state = some ⟨-1, a0⟩ := by
  unfold initAfterBind
  rw [hda]
  dsimp only
  obtain ⟨s, ch, opn, mg⟩ := denv
  obtain ⟨wl, dst, f, g, o, a⟩ := c
  cases hst
  rcases hbad with hb | hb | hb
  · cases hb
    simp only [drm_handle_device, Bool.not_false, if_true]
    rw [round2_neg_fd env _ _ _ _ (by simp [ctxFd])]
    exact ⟨rfl, rfl⟩
  · rcases hb with rfl
    cases s
    · simp only [drm_handle_device, Bool.not_false, if_true]
      rw [round2_neg_fd env _ _ _ _ (by simp [ctxFd])]
      exact ⟨rfl, rfl⟩
    · simp only [drm_handle_device, Bool.not_true, Bool.not_false,
        Bool.false_eq_true, if_false, if_true]
      rw [round2_neg_fd env _ _ _ _ (by simp [ctxFd])]
      exact ⟨rfl, rfl⟩
  · cases s
    · simp only [drm_handle_device, Bool.not_false, if_true]
      rw [round2_neg_fd env _ _ _ _ (by simp [ctxFd])]
      exact ⟨rfl, rfl⟩
    · cases ch
      · simp only [drm_handle_device, Bool.not_true, Bool.not_false,
          Bool.false_eq_true, if_false, if_true]
        rw [round2_neg_fd env _ _ _ _ (by simp [ctxFd])]
        exact ⟨rfl, rfl⟩
      · rcases hb with rfl
        simp only [drm_handle_device, Bool.not_true, Bool.false_eq_true,
          if_false, setFd]
        rw [round2_neg_fd env _ _ _ _ (by simp [ctxFd])]
        exact ⟨rfl, rfl⟩

lemma afterGlobal_ctx_drm_state_bad (env : InitEnv) (c : Ctx)
    (tr : List Event) (sts : List Ctx) (a0 : Nat) (denv : DeviceEnv)
    (hdl : env.dlopenOk = true) (hds : env.dlsymOk = true)
    (hbd : env.bindOk = true)
    (hda : env.deviceAdvert = some denv)
    (hbad : denv.statOk = false ∨ denv.isChr = false ∨ denv.openResult = none)
    (hst : c.drm_state = some ⟨-1, a0⟩) :
    (initAfterGlobal env c tr sts).ok = false ∧
    (initAfterGlobal env c tr sts).ctx.drm_state = some ⟨-1, a0⟩ := by
  unfold initAfterGlobal
  simp only [hdl, hds, hbd, Bool.not_true, Bool.false_eq_true, if_false]
  exact afterBind_ctx_drm_state_bad env _ _ _ a0 denv hda hbad (by exact hst)


lemma forall_mem_append_singleton {P : Ctx → Prop} {l : List Ctx} {x : Ctx}
    (hl : ∀ s ∈ l, P s) (hx : P x) : ∀ s ∈ l ++ [x], P s := by
  intro s hs
  rcases List.mem_append.mp hs with h | h
  · exact hl s h
  · rw [List.mem_singleton.mp h]; exact hx

lemma inv_wl_update (c : Ctx) (wl' : WlDrmCtx) (h : drmInvariant c) :
    drmInvariant { c with wl := wl' } := by
  obtain ⟨wl, dst, f, g, o, a⟩ := c
  rcases dst with _ | st
  · simp [drmInvariant]
  · simpa [drmInvariant] using h

lemma inv_hooks_update (c : Ctx) (wl' : WlDrmCtx) (h : drmInvariant c) :
    drmInvariant
      { c with wl := wl', finalize_set := true, vaGetDriverName_set := true } := by
  obtain ⟨wl, dst, f, g, o, a⟩ := c
  rcases dst with _ | st
  · simp [drmInvariant]
  · simpa [drmInvariant] using h

lemma inv_fresh (c : Ctx) :
    drmInvariant { c with drm_state := some { fd := -1, auth_type := 0 } } := by
  obtain ⟨wl, dst, f, g, o, a⟩ := c
  simp [drmInvariant]

lemma inv_device (denv : DeviceEnv) (c : Ctx) (h : drmInvariant c) :
    drmInvariant (drm_handle_device denv c).1 := by
  obtain ⟨s, ch, opn, mg⟩ := denv
  obtain ⟨wl, dst, f, g, o, a⟩ := c
  rcases dst with _ | ⟨fd0, at0⟩ <;>
    cases s <;> cases ch <;> rcases opn with _ | n <;>
      simp_all [drm_handle_device, setFd, drmInvariant]

lemma inv_auth (c : Ctx) (h : drmInvariant c) :
    drmInvariant (drm_handle_authenticated c) := by
  obtain ⟨wl, dst, f, g, o, a⟩ := c
  rcases dst with _ | ⟨fd0, at0⟩ <;>
    simp_all [drm_handle_authenticated, drmInvariant, VA_DRM_AUTH_CUSTOM]

lemma round2_states (env : InitEnv) (c1 : Ctx) (r : Bool) (tr1 : List Event)
    (sts1 : List Ctx) (h1 : drmInvariant c1)
    (hs : ∀ s ∈ sts1, drmInvariant s) :
    ∀ s ∈ (initRound2 env c1 r tr1 sts1).states, drmInvariant s := by
  unfold initRound2
  split
  · exact hs
  · dsimp only
    split
    · split <;> exact forall_mem_append_singleton hs (inv_auth c1 h1)
    · split <;> exact forall_mem_append_singleton hs h1

lemma afterBind_states (env : InitEnv) (c : Ctx) (tr : List Event)
    (sts : List Ctx) (h1 : drmInvariant c)
    (hs : ∀ s ∈ sts, drmInvariant s) :
    ∀ s ∈ (initAfterBind env c tr sts).states, drmInvariant s := by
  unfold initAfterBind
  cases hda : env.deviceAdvert with
  | none =>
    exact round2_states env c false _ _ h1 (forall_mem_append_singleton hs h1)
  | some denv =>
    dsimp only
    rcases hdev : drm_handle_device denv c with ⟨c1, ev, r⟩
    have h2 : drmInvariant c1 := by
      have := inv_device denv c h1
      rw [hdev] at this; exact this
    exact round2_states env c1 r _ _ h2 (forall_mem_append_singleton hs h2)

lemma afterGlobal_states (env : InitEnv) (c : Ctx) (tr : List Event)
    (sts : List Ctx) (h1 : drmInvariant c)
    (hs : ∀ s ∈ sts, drmInvariant s) :
    ∀ s ∈ (initAfterGlobal env c tr sts).states, drmInvariant s := by
  unfold initAfterGlobal
  cases hdl : env.dlopenOk
  · simpa using hs
  · cases hds : env.dlsymOk
    · simp only [Bool.not_true, Bool.false_eq_true, if_false, Bool.not_false,
        if_true]
      exact forall_mem_append_singleton hs (inv_wl_update c _ h1)
    · cases hbd : env.bindOk
      · simp only [Bool.not_true, Bool.false_eq_true, if_false,
          Bool.not_false, if_true]
        exact forall_mem_append_singleton hs
          (inv_wl_update _ _ (inv_wl_update c _ h1))
      · simp only [Bool.not_true, Bool.false_eq_true, if_false,
          Bool.not_false, if_true]
        exact afterBind_states env _ _ _
          (inv_wl_update _ _ (inv_wl_update _ _ (inv_wl_update c _ h1)))
          (forall_mem_append_singleton hs
            (inv_wl_update _ _ (inv_wl_update _ _ (inv_wl_update c _ h1))))


lemma driverNameMatch_spec (v : DrmVersion) (hlen : v.name_len = v.name.length) :
    g_driver_name_map.find? (driverNameMatch v)
      = g_driver_name_map.find?
          (fun m => decide (m.key_len ≤ v.name.length)
            && (v.name.take m.key_len == m.key)) := by
  apply find?_ext
  intro m hm
  fin_cases hm
  · simp [driverNameMatch, strncmpEq, hlen,
      show ("i915".toList.take 4 : List Char) = "i915".toList from by decide]
  · simp [driverNameMatch, strncmpEq, hlen,
      show ("pvrsrvkm".toList.take 8 : List Char) = "pvrsrvkm".toList from by decide]
  · simp [driverNameMatch, strncmpEq, hlen,
      show ("emgd".toList.take 4 : List Char) = "emgd".toList from by decide]


lemma device_ev_notlib (denv : DeviceEnv) (c : Ctx) :
    (drm_handle_device denv c).2.1.all (fun e => !isLibEvt e) = true := by
  obtain ⟨s, ch, opn, mg⟩ := denv
  cases s <;> cases ch <;> rcases opn with _ | n <;>
    simp [drm_handle_device, isLibEvt, isDlopenEvt, isDlsymEvt]

lemma afterBind_trace_shape (env : InitEnv) (c : Ctx) (tr : List Event)
    (sts : List Ctx) :
    ∃ rest, (initAfterBind env c tr sts).trace = tr ++ rest ∧
      rest.all (fun e => !isLibEvt e) = true := by
  unfold initAfterBind
  cases hda : env.deviceAdvert with
  | none =>
    rcases round2_trace env c false (tr ++ [.addListenerEvt, .roundtripEvt])
        (sts ++ [c]) with h | h <;> rw [h]
    · exact ⟨[.addListenerEvt, .roundtripEvt], rfl, by decide⟩
    · exact ⟨[.addListenerEvt, .roundtripEvt, .roundtripEvt],
        by simp, by decide⟩
  | some denv =>
    dsimp only
    rcases hdev : drm_handle_device denv c with ⟨c1, ev, r⟩
    have hall : ev.all (fun e => !isLibEvt e) = true := by
      have := device_ev_notlib denv c
      rw [hdev] at this; exact this
    rcases round2_trace env c1 r
        (tr ++ [.addListenerEvt, .roundtripEvt] ++ ev) (sts ++ [c1])
      with h | h <;> rw [h]
    · refine ⟨[.addListenerEvt, .roundtripEvt] ++ ev, by simp, ?_⟩
      rw [List.all_append, hall]
      decide
    · refine ⟨[.addListenerEvt, .roundtripEvt] ++ ev ++ [.roundtripEvt],
        by simp, ?_⟩
      rw [List.all_append, List.all_append, hall]
      decide

lemma afterGlobal_trace_shape (env : InitEnv) (c : Ctx) (tr : List Event)
    (sts : List Ctx) :
    (env.dlopenOk = false ∧
      (initAfterGlobal env c tr sts).trace = tr ++ [.dlopenEvt false]) ∨
    (env.dlopenOk = true ∧ env.dlsymOk = false ∧
      (initAfterGlobal env c tr sts).trace
        = tr ++ [.dlopenEvt true, .dlsymEvt false]) ∨
    (env.dlopenOk = true ∧ env.dlsymOk = true ∧
      ∃ rest, (initAfterGlobal env c tr sts).trace
          = tr ++ [.dlopenEvt true, .dlsymEvt true] ++ rest ∧
        rest.all (fun e => !isLibEvt e) = true) := by
  unfold initAfterGlobal
  cases hdl : env.dlopenOk
  · exact Or.inl ⟨rfl, by simp⟩
  · cases hds : env.dlsymOk
    · exact Or.inr (Or.inl ⟨rfl, rfl, by simp⟩)
    · refine Or.inr (Or.inr ⟨rfl, rfl, ?_⟩)
      simp only [Bool.not_true, Bool.false_eq_true, if_false]
      cases hbd : env.bindOk
      · simp only [Bool.not_false, if_true]
        exact ⟨[.bindEvt false], by simp, by decide⟩
      · simp only [Bool.not_true, Bool.false_eq_true, if_false]
        rcases afterBind_trace_shape env _
            (tr ++ [.dlopenEvt true, .dlsymEvt true, .bindEvt true]) _
          with ⟨rest, htr, hall⟩
        rw [htr]
        refine ⟨[.bindEvt true] ++ rest, by simp, ?_⟩
        simp only [List.all_append, hall, Bool.and_true]
        decide

/-! ## Theorems -/

/-- C9: `va_wayland_drm_init` installs the finalize hook and the
`vaGetDriverName` resolver callback on the display context unconditionally,
before its first fallible step: for every environment and starting context,
both hooks are set on the resulting context, even when the initializer
returns false. -/
theorem init_installs_hooks (env : InitEnv) (c0 : Ctx) :
    (va_wayland_drm_init env c0).ctx.finalize_set = true ∧
    (va_wayland_drm_init env c0).ctx.vaGetDriverName_set = true := by
  unfold va_wayland_drm_init
  cases hc : env.callocOk
  · simp [hc]
  · by_cases hg1 : env.getGlobal1 = 0
    · by_cases hg2 : env.getGlobal2 = 0
      · simp [hc, hg1, hg2]
      · simp only [hc, hg1, hg2, Bool.not_true, Bool.false_eq_true, if_false,
          ne_eq, not_true_eq_false, not_false_eq_true, if_true]
        constructor
        · exact (afterGlobal_hooks env _ _ _).1.trans rfl
        · exact (afterGlobal_hooks env _ _ _).2.trans rfl
    · simp only [hc, hg1, Bool.not_true, Bool.false_eq_true, if_false, ne_eq,
        not_false_eq_true, if_true]
      constructor
      · exact (afterGlobal_hooks env _ _ _).1.trans rfl
      · exact (afterGlobal_hooks env _ _ _).2.trans rfl

/-- C10: `va_DisplayContextGetDriverName` does not modify the DRM state: the
returned state equals the input state, in particular its `fd` and `auth_type`
fields are unchanged, on success and on every failure path. -/
theorem getDriverName_frame (env : GetDriverNameEnv) (st : DrmState) :
    (va_DisplayContextGetDriverName env st).drm_state = st ∧
    (va_DisplayContextGetDriverName env st).drm_state.fd = st.fd ∧
    (va_DisplayContextGetDriverName env st).drm_state.auth_type = st.auth_type := by
  unfold va_DisplayContextGetDriverName
  split
  · exact ⟨rfl, rfl, rfl⟩
  · split
    · exact ⟨rfl, rfl, rfl⟩
    · split <;> exact ⟨rfl, rfl, rfl⟩

/-- C8: the allocation-failure status is returned exactly when the version
query succeeds, the table scan finds a match, and `strdup` fails; on every
non-success return the output string pointer is NULL; and after a successful
version query the version record is freed exactly once on every path. -/
theorem getDriverName_alloc_failure (env : GetDriverNameEnv) (st : DrmState) :
    ((va_DisplayContextGetDriverName env st).status = .errorAllocationFailed ↔
      ∃ v, env.drmGetVersion st.fd = some v ∧
        (g_driver_name_map.find? (driverNameMatch v)).isSome = true ∧
        env.strdupOk = false) ∧
    ((va_DisplayContextGetDriverName env st).status ≠ .success →
      (va_DisplayContextGetDriverName env st).driver_name_ptr = none) ∧
    (∀ v, env.drmGetVersion st.fd = some v →
      (va_DisplayContextGetDriverName env st).events.count Event.drmFreeVersionEvt = 1) := by
  cases hv : env.drmGetVersion st.fd with
  | none =>
    refine ⟨?_, ?_, ?_⟩ <;>
      simp [va_DisplayContextGetDriverName, hv]
  | some v =>
    cases hfind : g_driver_name_map.find? (driverNameMatch v) with
    | none =>
      refine ⟨?_, ?_, ?_⟩ <;>
        simp [va_DisplayContextGetDriverName, hv, hfind, List.count_cons]
      intro x hx hmatch
      exact absurd hmatch (List.find?_eq_none.mp hfind x hx)
    | some m =>
      cases hdup : env.strdupOk <;>
        (refine ⟨?_, ?_, ?_⟩ <;>
          simp [va_DisplayContextGetDriverName, hv, hfind, hdup, List.count_cons])
      exact ⟨m, List.mem_of_find?_eq_some hfind, List.find?_some hfind⟩

/-- C6: `va_wayland_drm_finalize` is idempotent (a second run from the
resulting state changes nothing and performs no release call), resets every
released field (proxy pointer NULL, authenticated flag 0, library handle
NULL, drm state freed), and releases each resource only when it is present:
the destroy/dlclose/free events occur iff the proxy, the library handle,
resp. the drm state were present, and a close event only occurs for the fd
actually stored in a present drm state with `fd >= 0`. -/
theorem finalize_idempotent (c : Ctx) :
    va_wayland_drm_finalize (va_wayland_drm_finalize c).1 =
      ((va_wayland_drm_finalize c).1, []) ∧
    (va_wayland_drm_finalize c).1.wl.drm = false ∧
    (va_wayland_drm_finalize c).1.wl.is_authenticated = 0 ∧
    (va_wayland_drm_finalize c).1.wl.libEGL_handle = false ∧
    (va_wayland_drm_finalize c).1.drm_state = none ∧
    ((Event.drmDestroyEvt ∈ (va_wayland_drm_finalize c).2) ↔ c.wl.drm = true) ∧
    ((Event.dlcloseEvt ∈ (va_wayland_drm_finalize c).2) ↔ c.wl.libEGL_handle = true) ∧
    ((Event.freeDrmStateEvt ∈ (va_wayland_drm_finalize c).2) ↔ c.drm_state.isSome = true) ∧
    (∀ fd, Event.closeEvt fd ∈ (va_wayland_drm_finalize c).2 →
      ∃ st, c.drm_state = some st ∧ st.fd = fd ∧ 0 ≤ fd) := by
  obtain ⟨⟨drm, auth, hdl, iface⟩, dst, f, g, o, a⟩ := c
  rcases dst with _ | ⟨fd, at0⟩
  · cases drm <;> cases hdl <;> simp [va_wayland_drm_finalize]
  · cases drm <;> cases hdl <;> by_cases hfd : (0 : Int) ≤ fd <;>
      simp [va_wayland_drm_finalize, hfd]

/-- C6 witness: on a context holding every resource, the theorem yields the
presence facts for the close event at the stored fd. -/
theorem finalize_idempotent_witness :
    ∃ st, (Ctx.mk ⟨true, 1, true, true⟩ (some ⟨5, 3⟩) true true true true).drm_state
        = some st ∧ st.fd = 5 ∧ (0 : Int) ≤ 5 :=
  (finalize_idempotent (Ctx.mk ⟨true, 1, true, true⟩ (some ⟨5, 3⟩) true true true true)).2.2.2.2.2.2.2.2
    5 (by decide)

/-- C2 counterexample: in an environment where the external call
`drmGetMagic` fails but every other call succeeds and the compositor still
confirms authentication, the initializer performs an external call that
failed (visible in its trace) and nevertheless returns true — so it is not
the case that every external call's result is checked and any failure forces
a false return. -/
theorem init_unchecked_call_counterexample :
    ((va_wayland_drm_init envMagicFail ctx0).trace.any isFailedExternalCall
      = true) ∧
    (Event.drmGetMagicEvt false ∈ (va_wayland_drm_init envMagicFail ctx0).trace) ∧
    (va_wayland_drm_init envMagicFail ctx0).ok = true := by decide

/-- C2 (amended): every external call whose result the code consults
(calloc, dlopen, dlsym, bind, stat, open) aborts the initializer on failure:
a run that returns true contains no failed checked call in its trace, and its
registry query succeeded (immediately or on the single round-trip retry).
The results of `drmGetMagic` and of the round-trips are not checked. -/
theorem init_checked_calls (env : InitEnv) (c0 : Ctx)
    (h : (va_wayland_drm_init env c0).ok = true) :
    (va_wayland_drm_init env c0).trace.any isFailedCheckedCall = false ∧
    (env.getGlobal1 ≠ 0 ∨ env.getGlobal2 ≠ 0) := by
  constructor
  · revert h
    unfold va_wayland_drm_init
    cases hc : env.callocOk
    · intro h; simp at h
    · by_cases hg1 : env.getGlobal1 = 0
      · by_cases hg2 : env.getGlobal2 = 0
        · intro h; simp [hg1, hg2] at h
        · simp only [hg1, hg2, Bool.not_true, Bool.false_eq_true, if_false,
            ne_eq, not_true_eq_false, not_false_eq_true, if_true]
          intro h
          rw [afterGlobal_trace_ok env _ _ _ (by simp) h]
          simp [isFailedCheckedCall, hg2]
      · simp only [hg1, Bool.not_true, Bool.false_eq_true, if_false, ne_eq,
          not_false_eq_true, if_true]
        intro h
        rw [afterGlobal_trace_ok env _ _ _ (by simp) h]
        simp [isFailedCheckedCall, hg1]
  · exact ((init_ok_iff env c0).mp h).2.1

/-- C2 (amended) witness: the all-succeeding environment returns true, and
the theorem yields a failure-free trace for it. -/
theorem init_checked_calls_witness :
    (va_wayland_drm_init envAllOk ctx0).trace.any isFailedCheckedCall = false ∧
    (envAllOk.getGlobal1 ≠ 0 ∨ envAllOk.getGlobal2 ≠ 0) :=
  init_checked_calls envAllOk ctx0 (by decide)

/-- C3: if the run reaches the device advertisement (calloc, registry query,
dlopen, dlsym and bind all succeed) and the advertised path fails `stat`, is
not a character device, or fails to open, then `va_wayland_drm_init` returns
false and the DRM state's file descriptor is left at -1 (with `auth_type`
still 0). -/
theorem init_bad_device (env : InitEnv) (c0 : Ctx) (denv : DeviceEnv)
    (hc : env.callocOk = true)
    (hdl : env.dlopenOk = true) (hds : env.dlsymOk = true)
    (hbd : env.bindOk = true)
    (hda : env.deviceAdvert = some denv)
    (hbad : denv.statOk = false ∨ denv.isChr = false ∨
      denv.openResult = none) :
    (va_wayland_drm_init env c0).ok = false ∧
    (va_wayland_drm_init env c0).ctx.drm_state
      = some { fd := -1, auth_type := 0 } := by
  unfold va_wayland_drm_init
  rw [hc]
  simp only [Bool.not_true, Bool.false_eq_true, if_false]
  by_cases hg1 : env.getGlobal1 = 0
  · by_cases hg2 : env.getGlobal2 = 0
    · simp [hg1, hg2]
    · simp only [hg1, hg2, ne_eq, not_true_eq_false, not_false_eq_true,
        if_false, if_true]
      exact afterGlobal_ctx_drm_state_bad env _ _ _ 0 denv hdl hds hbd hda
        hbad (by simp)
  · simp only [hg1, ne_eq, not_false_eq_true, if_true]
    exact afterGlobal_ctx_drm_state_bad env _ _ _ 0 denv hdl hds hbd hda
      hbad (by simp)

/-- C3 witness: with a failing `stat`, the initializer fails and leaves the
fd at -1. -/
theorem init_bad_device_witness :
    (va_wayland_drm_init envStatFail ctx0).ok = false ∧
    (va_wayland_drm_init envStatFail ctx0).ctx.drm_state
      = some { fd := -1, auth_type := 0 } :=
  init_bad_device envStatFail ctx0 ⟨false, true, some 4, true⟩ rfl rfl rfl rfl
    rfl (Or.inl rfl)

/-- C4: if the compositor's authenticated callback has not fired by the end
of the run (the ghost flag is still clear), `va_wayland_drm_init` returns
false — in particular even in runs where the device fd was successfully
opened. -/
theorem init_requires_auth (env : InitEnv) (c0 : Ctx)
    (h : (va_wayland_drm_init env c0).ctx.authFired = false) :
    (va_wayland_drm_init env c0).ok = false := by
  cases hok : (va_wayland_drm_init env c0).ok
  · rfl
  · have hf := init_authFired env c0 hok
    rw [h] at hf
    cases hf

/-- C4 witness: the device opens (fd 4) but the compositor never confirms;
the initializer returns false. -/
theorem init_requires_auth_witness :
    (va_wayland_drm_init envAuthFail ctx0).ok = false :=
  init_requires_auth envAuthFail ctx0 (by decide)


/-- C5: in every state reachable through the initializer and its callbacks
(the recorded state snapshots of a run started from a context satisfying the
invariant), the DRM state satisfies: a non-negative fd implies the device was
successfully opened, and a non-zero `auth_type` implies the compositor's
authenticated callback has fired. -/
theorem init_reachable_invariant (env : InitEnv) (c0 : Ctx)
    (h : drmInvariant c0) :
    ∀ c ∈ (va_wayland_drm_init env c0).states, drmInvariant c := by
  unfold va_wayland_drm_init
  have h1 := inv_hooks_update c0
    { c0.wl with drm := false, is_authenticated := 0 } h
  have h2 := inv_fresh { c0 with wl := { c0.wl with drm := false, is_authenticated := 0 }, finalize_set := true, vaGetDriverName_set := true }
  cases hc : env.callocOk
  · simp only [Bool.not_false, if_true]
    intro s hs
    rw [List.mem_singleton.mp hs]
    exact h1
  · simp only [Bool.not_true, Bool.false_eq_true, if_false]
    by_cases hg1 : env.getGlobal1 = 0
    · by_cases hg2 : env.getGlobal2 = 0
      · simp only [hg1, hg2, ne_eq, not_true_eq_false, if_false]
        intro s hs
        rcases List.mem_cons.mp hs with h' | h'
        · rw [h']; exact h1
        · rw [List.mem_singleton.mp h']; exact h2
      · simp only [hg1, hg2, ne_eq, not_true_eq_false, not_false_eq_true,
          if_false, if_true]
        refine afterGlobal_states env _ _ _ h2 ?_
        intro s hs
        rcases List.mem_cons.mp hs with h' | h'
        · rw [h']; exact h1
        · rw [List.mem_singleton.mp h']; exact h2
    · simp only [hg1, ne_eq, not_false_eq_true, if_true]
      refine afterGlobal_states env _ _ _ h2 ?_
      intro s hs
      rcases List.mem_cons.mp hs with h' | h'
      · rw [h']; exact h1
      · rw [List.mem_singleton.mp h']; exact h2

/-- C5 witness: a concrete successful run from the empty context; its final
context is among the recorded states and satisfies the invariant. -/
theorem init_reachable_invariant_witness :
    drmInvariant (va_wayland_drm_init envAllOk ctx0).ctx :=
  init_reachable_invariant envAllOk ctx0 (by simp [drmInvariant, ctx0])
    (va_wayland_drm_init envAllOk ctx0).ctx (by decide)

/-- C1: for every driver name string reported by the kernel (with `name_len`
as filled in by `drmGetVersion`, i.e. the string length), the resolver
returns exactly what the spec-side first-match table scan prescribes (first
entry, scanning top-to-bottom, whose prefix is no longer than the name and
matches its first `key_len` characters); in particular a name starting with
"i915" yields "i965", one starting with "pvrsrvkm" yields "pvr", one
starting with "emgd" yields "emgd", and "nouveau" yields the unknown-error
status. -/
theorem getDriverName_prefix_table :
    (∀ (env : GetDriverNameEnv) (st : DrmState) (v : DrmVersion),
      env.drmGetVersion st.fd = some v → v.name_len = v.name.length →
      env.strdupOk = true →
      (va_DisplayContextGetDriverName env st).driver_name_ptr
          = specDriverNameLookup v.name ∧
        (va_DisplayContextGetDriverName env st).status
          = (match specDriverNameLookup v.name with
             | some _ => VAStatus.success
             | none => VAStatus.errorUnknown)) ∧
    (∀ (env : GetDriverNameEnv) (st : DrmState) (v : DrmVersion),
      env.drmGetVersion st.fd = some v → v.name_len = v.name.length →
      env.strdupOk = true → v.name.take 4 = "i915".toList →
      (va_DisplayContextGetDriverName env st).driver_name_ptr = some "i965") ∧
    (∀ (env : GetDriverNameEnv) (st : DrmState) (v : DrmVersion),
      env.drmGetVersion st.fd = some v → v.name_len = v.name.length →
      env.strdupOk = true → v.name.take 8 = "pvrsrvkm".toList →
      (va_DisplayContextGetDriverName env st).driver_name_ptr = some "pvr") ∧
    (∀ (env : GetDriverNameEnv) (st : DrmState) (v : DrmVersion),
      env.drmGetVersion st.fd = some v → v.name_len = v.name.length →
      env.strdupOk = true → v.name.take 4 = "emgd".toList →
      (va_DisplayContextGetDriverName env st).driver_name_ptr = some "emgd") ∧
    (∀ (env : GetDriverNameEnv) (st : DrmState),
      env.drmGetVersion st.fd = some ⟨"nouveau".toList, 7⟩ →
      (va_DisplayContextGetDriverName env st).status = VAStatus.errorUnknown ∧
      (va_DisplayContextGetDriverName env st).driver_name_ptr = none) := by
  have main : ∀ (env : GetDriverNameEnv) (st : DrmState) (v : DrmVersion),
      env.drmGetVersion st.fd = some v → v.name_len = v.name.length →
      env.strdupOk = true →
      (va_DisplayContextGetDriverName env st).driver_name_ptr
          = specDriverNameLookup v.name ∧
        (va_DisplayContextGetDriverName env st).status
          = (match specDriverNameLookup v.name with
             | some _ => VAStatus.success
             | none => VAStatus.errorUnknown) := by
    intro env st v hv hlen hdup
    have heq := driverNameMatch_spec v hlen
    cases hspec : g_driver_name_map.find?
        (fun m => decide (m.key_len ≤ v.name.length)
          && (v.name.take m.key_len == m.key)) with
    | none =>
      rw [hspec] at heq
      constructor <;>
        simp [va_DisplayContextGetDriverName, specDriverNameLookup, hv, heq,
          hspec]
    | some m =>
      rw [hspec] at heq
      constructor <;>
        simp [va_DisplayContextGetDriverName, specDriverNameLookup, hv, heq,
          hspec, hdup]
  refine ⟨main, ?_, ?_, ?_, ?_⟩
  · intro env st v hv hlen hdup hpre
    have h4 : 4 ≤ v.name.length := by
      have hl := congrArg List.length hpre
      simp [List.length_take,
        show ("i915".toList).length = 4 from by decide] at hl
      omega
    have hlook : specDriverNameLookup v.name = some "i965" := by
      unfold specDriverNameLookup g_driver_name_map
      simp [List.find?, hpre, h4]
    rw [(main env st v hv hlen hdup).1, hlook]
  · intro env st v hv hlen hdup hpre
    have h8 : 8 ≤ v.name.length := by
      have hl := congrArg List.length hpre
      simp [List.length_take,
        show ("pvrsrvkm".toList).length = 8 from by decide] at hl
      omega
    have ht4 : v.name.take 4 = ['p', 'v', 'r', 's'] := by
      have ht := congrArg (List.take 4) hpre
      rw [List.take_take] at ht
      simpa [show (List.take 4 "pvrsrvkm".toList : List Char)
          = ['p', 'v', 'r', 's'] from by decide] using ht
    have hlook : specDriverNameLookup v.name = some "pvr" := by
      unfold specDriverNameLookup g_driver_name_map
      simp [List.find?, hpre, ht4, h8,
        show ((['p', 'v', 'r', 's'] : List Char) == "i915".toList) = false
          from by decide]
    rw [(main env st v hv hlen hdup).1, hlook]
  · intro env st v hv hlen hdup hpre
    have h4 : 4 ≤ v.name.length := by
      have hl := congrArg List.length hpre
      simp [List.length_take,
        show ("emgd".toList).length = 4 from by decide] at hl
      omega
    have hpre' : v.name.take 4 = ['e', 'm', 'g', 'd'] := by
      rw [hpre]; decide
    have hne1 : (v.name.take 4 == ['i', '9', '1', '5']) = false := by
      rw [hpre']; decide
    have hne2 : (v.name.take 8
        == ['p', 'v', 'r', 's', 'r', 'v', 'k', 'm']) = false := by
      rw [beq_eq_false_iff_ne]
      intro hcontra
      have ht := congrArg (List.take 4) hcontra
      rw [List.take_take] at ht
      rw [show min 4 8 = 4 from rfl, hpre] at ht
      exact absurd ht (by decide)
    have hlook : specDriverNameLookup v.name = some "emgd" := by
      unfold specDriverNameLookup g_driver_name_map
      simp [List.find?, hpre', h4, hne1, hne2]
    rw [(main env st v hv hlen hdup).1, hlook]
  · intro env st hv
    have hfind : g_driver_name_map.find?
        (driverNameMatch ⟨['n', 'o', 'u', 'v', 'e', 'a', 'u'], 7⟩)
          = none := by decide
    constructor <;>
      simp [va_DisplayContextGetDriverName, hv, hfind]

/-- C1 witness: the concrete "i915" environment resolves to "i965". -/
theorem getDriverName_prefix_table_witness :
    (va_DisplayContextGetDriverName envGetI915
      { fd := 0, auth_type := 0 }).driver_name_ptr = some "i965" :=
  getDriverName_prefix_table.2.1 envGetI915 { fd := 0, auth_type := 0 }
    ⟨"i915".toList, 4⟩ rfl (by decide) rfl (by decide)

/-- C8 witness: with a successful query and a failing `strdup`, the version
record is freed exactly once. -/
theorem getDriverName_alloc_failure_witness :
    (va_DisplayContextGetDriverName envGetAllocFail
      { fd := 0, auth_type := 0 }).events.count Event.drmFreeVersionEvt = 1 :=
  (getDriverName_alloc_failure envGetAllocFail
    { fd := 0, auth_type := 0 }).2.2 ⟨"i915".toList, 4⟩ rfl

/-- C7 counterexample: in the all-succeeding environment both a registry
query and a library load occur, but the library load does NOT precede the
registry query — the code queries the registry first (line 198) and only
then dlopens the library (line 206). -/
theorem init_order_counterexample :
    ((va_wayland_drm_init envAllOk ctx0).trace.any isDlopenEvt = true) ∧
    ((va_wayland_drm_init envAllOk ctx0).trace.any isGetGlobalEvt = true) ∧
    ¬ ((va_wayland_drm_init envAllOk ctx0).trace.findIdx isDlopenEvt <
       (va_wayland_drm_init envAllOk ctx0).trace.findIdx isGetGlobalEvt) := by
  decide

/-- C7 (amended): the externally visible steps occur in the order: registry
query, then library load, then symbol lookup — in every run whose trace
contains a dlopen, the first registry query precedes the first dlopen, and
in every run whose trace contains a dlsym, the first dlopen precedes the
first dlsym. -/
theorem init_query_before_load (env : InitEnv) (c0 : Ctx) :
    ((va_wayland_drm_init env c0).trace.any isDlopenEvt = true →
      (va_wayland_drm_init env c0).trace.findIdx isGetGlobalEvt <
        (va_wayland_drm_init env c0).trace.findIdx isDlopenEvt) ∧
    ((va_wayland_drm_init env c0).trace.any isDlsymEvt = true →
      (va_wayland_drm_init env c0).trace.findIdx isDlopenEvt <
        (va_wayland_drm_init env c0).trace.findIdx isDlsymEvt) := by
  unfold va_wayland_drm_init
  cases hc : env.callocOk
  · simp only [Bool.not_false, if_true]
    constructor <;> (intro h; simp [isDlopenEvt, isDlsymEvt] at h)
  · simp only [Bool.not_true, Bool.false_eq_true, if_false]
    by_cases hg1 : env.getGlobal1 = 0
    · by_cases hg2 : env.getGlobal2 = 0
      · simp only [hg1, hg2, ne_eq, not_true_eq_false, if_false]
        constructor <;> (intro h; simp [isDlopenEvt, isDlsymEvt] at h)
      · simp only [hg1, hg2, ne_eq, not_true_eq_false, not_false_eq_true,
          if_false, if_true]
        rcases afterGlobal_trace_shape env _
            [Event.callocEvt true, Event.getGlobalEvt 0, Event.roundtripEvt,
              Event.getGlobalEvt env.getGlobal2] _
          with ⟨_, htr⟩ | ⟨_, _, htr⟩ | ⟨_, _, rest, htr, _⟩ <;>
          rw [htr] <;>
          constructor <;>
          intro h <;>
          simp [List.findIdx_cons, isGetGlobalEvt, isDlopenEvt, isDlsymEvt,
            List.any_append, isLibEvt] at h ⊢
    · simp only [hg1, ne_eq, not_false_eq_true, if_true]
      rcases afterGlobal_trace_shape env _
          [Event.callocEvt true, Event.getGlobalEvt env.getGlobal1] _
        with ⟨_, htr⟩ | ⟨_, _, htr⟩ | ⟨_, _, rest, htr, _⟩ <;>
        rw [htr] <;>
        constructor <;>
        intro h <;>
        simp [List.findIdx_cons, isGetGlobalEvt, isDlopenEvt, isDlsymEvt,
          List.any_append, isLibEvt] at h ⊢

/-- C7 (amended) witness: concrete ordering facts in the all-succeeding
run. -/
theorem init_query_before_load_witness :
    ((va_wayland_drm_init envAllOk ctx0).trace.findIdx isGetGlobalEvt <
      (va_wayland_drm_init envAllOk ctx0).trace.findIdx isDlopenEvt) ∧
    ((va_wayland_drm_init envAllOk ctx0).trace.findIdx isDlopenEvt <
      (va_wayland_drm_init envAllOk ctx0).trace.findIdx isDlsymEvt) :=
  ⟨(init_query_before_load envAllOk ctx0).1 (by decide),
   (init_query_before_load envAllOk ctx0).2 (by decide)⟩

end VaWaylandDrm
